import Mathlib

/-!
Verification development for the pip-services3-mongodb-go repository.

The Go sources are shallowly embedded as Lean functions.  Configuration
maps (StringValueMap / ConfigParams / ConnectionParams / CredentialParams
from pip-services3-commons-go) are modelled as association lists of
string pairs; fallible Go calls return Except or an Option error; Go
runtime panics are modelled by an explicit panicked outcome constructor.
-/

namespace MongoDb

/-- A pip-services application error: category (ConfigError,
ConnectionError, InvalidStateError, ...), machine readable code,
human message and an optional wrapped cause. -/
structure AppError where
  category : String
  code : String
  message : String
  correlationId : String
  cause : Option String
deriving DecidableEq, Repr

/-- errors.NewConfigError from pip-services3-commons-go. -/
def NewConfigError (correlationId code message : String) : AppError :=
  { category := "ConfigError", code := code, message := message,
    correlationId := correlationId, cause := none }

/-- errors.NewConnectionError from pip-services3-commons-go. -/
def NewConnectionError (correlationId code message : String) : AppError :=
  { category := "ConnectionError", code := code, message := message,
    correlationId := correlationId, cause := none }

/-- errors.NewInvalidStateError from pip-services3-commons-go. -/
def NewInvalidStateError (correlationId code message : String) : AppError :=
  { category := "InvalidStateError", code := code, message := message,
    correlationId := correlationId, cause := none }

/-- ApplicationError.WithCause: attaches the underlying cause. -/
def AppError.withCause (e : AppError) (cause : String) : AppError :=
  { e with cause := some cause }

/-- A StringValueMap from pip-services3-commons-go: an association list of
string keys and string values; later Put of an existing key overwrites in
place.  ConfigParams, ConnectionParams and CredentialParams all extend it. -/
def SVMap : Type := List (String × String)

instance : DecidableEq SVMap := by unfold SVMap; infer_instance

instance : Repr SVMap := by unfold SVMap; infer_instance

instance : Membership (String × String) SVMap := by unfold SVMap; infer_instance

namespace SVMap

/-- StringValueMap.Get: the value stored under a key, or the empty string
when the key is absent (Go map zero value). -/
def get (m : SVMap) (key : String) : String :=
  match List.lookup key m with
  | some v => v
  | none => ""

/-- StringValueMap.Put / SetAsObject: overwrite an existing key in place,
or append a new one. -/
def put (m : SVMap) (key value : String) : SVMap :=
  match m with
  | [] => [(key, value)]
  | (k, v) :: rest =>
      if k = key then (k, value) :: rest else (k, v) :: put rest key value

/-- StringValueMap.Append: merge another map over this one, key by key. -/
def append (m other : SVMap) : SVMap :=
  other.foldl (fun acc kv => put acc kv.1 kv.2) m

/-- StringValueMap.Remove. -/
def remove (m : SVMap) (key : String) : SVMap :=
  List.filter (fun kv => kv.1 ≠ key) m

/-- StringValueMap.Keys, in insertion order. -/
def keys (m : SVMap) : List String :=
  List.map Prod.fst m

end SVMap

/-- A decimal digit string parser (kernel-reducible stand-in for the
string to integer conversion of pip-services IntegerConverter). -/
def parseNatAux : List Char → Nat → Option Nat
  | [], acc => some acc
  | c :: cs, acc =>
      if c.isDigit then parseNatAux cs (acc * 10 + (c.toNat - 48)) else none

/-- Parse a non-empty all-digit string as a natural number. -/
def parseNat (s : String) : Option Nat :=
  match s.data with
  | [] => none
  | cs => parseNatAux cs 0

namespace SVMap

/-- StringValueMap.GetAsIntegerWithDefault: convert the stored string to
an integer, falling back to the default when absent or unparsable
(IntegerConverter.ToIntegerWithDefault). -/
def getAsIntegerWithDefault (m : SVMap) (key : String) (dflt : Nat) : Nat :=
  match parseNat (get m key) with
  | some n => n
  | none => dflt

end SVMap

/-- ConnectionParams (pip-services3-components-go connect): a
configuration fragment; a plain string map with typed accessors. -/
def ConnectionParams : Type := SVMap

instance : DecidableEq ConnectionParams := by unfold ConnectionParams; infer_instance

namespace ConnectionParams

/-- ConnectionParams.Uri(). -/
def Uri (c : ConnectionParams) : String := SVMap.get c "uri"

/-- ConnectionParams.Host(). -/
def Host (c : ConnectionParams) : String := SVMap.get c "host"

/-- ConnectionParams.Port(): GetAsIntegerWithDefault("port", 0). -/
def Port (c : ConnectionParams) : Nat := SVMap.getAsIntegerWithDefault c "port" 0

/-- ConnectionParams.Value(): the underlying map. -/
def Value (c : ConnectionParams) : SVMap := c

end ConnectionParams

/-- CredentialParams (pip-services3-components-go auth). -/
def CredentialParams : Type := SVMap

instance : DecidableEq CredentialParams := by unfold CredentialParams; infer_instance

namespace CredentialParams

/-- CredentialParams.Username(). -/
def Username (c : CredentialParams) : String := SVMap.get c "username"

/-- CredentialParams.Password(). -/
def Password (c : CredentialParams) : String := SVMap.get c "password"

/-- CredentialParams.Value(): the underlying map. -/
def Value (c : CredentialParams) : SVMap := c

end CredentialParams

/-- The outcome of a call that can also abort the process: ok with a
value, a returned error, or a Go runtime panic. -/
inductive Outcome (α : Type) where
  | ok (a : α)
  | err (e : AppError)
  | panicked (msg : String)
deriving DecidableEq, Repr

/-- StringValueMap.GetAsNullableString: the value stored under a key, or
a nil pointer when the key is absent.  The Go call sites dereference the
returned pointer, so an absent key makes that dereference panic. -/
def SVMap.getAsNullableString (m : SVMap) (key : String) : Option String :=
  List.lookup key m

namespace MongoDbConnectionResolver

/-- MongoDbConnectionResolver.validateConnection
(src/connect/MongoDbConnectionResolver.go lines 71 to 90): a fragment
with a non-empty uri is accepted immediately; otherwise host, port and
database are checked in that order.  An empty host or a zero port yields
a ConfigError; the database value is read with GetAsNullableString and
dereferenced without a nil check, so a fragment lacking the database key
panics, and only a present-but-empty value yields NO_DATABASE. -/
def validateConnection (correlationId : String) (connection : ConnectionParams) :
    Outcome Unit :=
  let uri := ConnectionParams.Uri connection
  if uri ≠ "" then .ok ()
  else
    let host := ConnectionParams.Host connection
    if host = "" then
      .err (NewConfigError correlationId "NO_HOST" "Connection host is not set")
    else
      let port := ConnectionParams.Port connection
      if port = 0 then
        .err (NewConfigError correlationId "NO_PORT" "Connection port is not set")
      else
        match SVMap.getAsNullableString connection "database" with
        | none => .panicked "invalid memory address or nil pointer dereference"
        | some database =>
            if database = "" then
              .err (NewConfigError correlationId "NO_DATABASE" "Connection database is not set")
            else .ok ()

/-- The fragment loop of validateConnections: the first fragment whose
validation does not succeed decides the result (a panic aborts the
loop). -/
def validateConnectionsLoop (correlationId : String) :
    List ConnectionParams → Outcome Unit
  | [] => .ok ()
  | connection :: rest =>
      match validateConnection correlationId connection with
      | .ok _ => validateConnectionsLoop correlationId rest
      | .err e => .err e
      | .panicked m => .panicked m

/-- MongoDbConnectionResolver.validateConnections
(src/connect/MongoDbConnectionResolver.go lines 92 to 104): a nil or
empty list is a NO_CONNECTION ConfigError; otherwise the fragments are
validated in order and the first failure decides. -/
def validateConnections (correlationId : String)
    (connections : List ConnectionParams) : Outcome Unit :=
  if connections.isEmpty then
    .err (NewConfigError correlationId "NO_CONNECTION" "Database connection is not set")
  else
    validateConnectionsLoop correlationId connections

/-- The hosts accumulation loop of composeUri: a comma is appended before
each subsequent fragment, and host:port is appended only when the port is
non-zero (translated literally from the source loop). -/
def composeHosts (connections : List ConnectionParams) : String :=
  connections.foldl
    (fun hosts connection =>
      let host := ConnectionParams.Host connection
      let port := ConnectionParams.Port connection
      let hosts := if hosts.length > 0 then hosts ++ "," else hosts
      if port ≠ 0 then hosts ++ host ++ ":" ++ toString port else hosts)
    ""

/-- The database selection loop of composeUri: while the accumulated
database is still empty, each fragment's database value is read with
GetAsNullableString and dereferenced without a nil check, so a fragment
lacking the key panics at this point; otherwise the first non-empty
value wins. -/
def composeDatabaseLoop : List ConnectionParams → String → Outcome String
  | [], database => .ok database
  | connection :: rest, database =>
      if database = "" then
        match SVMap.getAsNullableString connection "database" with
        | none => .panicked "invalid memory address or nil pointer dereference"
        | some db => composeDatabaseLoop rest db
      else composeDatabaseLoop rest database

/-- The authentication part of composeUri. -/
def composeAuth (credential : Option CredentialParams) : String :=
  match credential with
  | none => ""
  | some cred =>
      let username := CredentialParams.Username cred
      if username.length > 0 then
        let password := CredentialParams.Password cred
        if password.length > 0 then username ++ ":" ++ password ++ "@"
        else username ++ "@"
      else ""

/-- The residual query parameter string of composeUri: the union of all
fragment keys plus the credential keys, minus the structural keys, each
rendered key or key=value and joined by ampersands. -/
def composeParams (connections : List ConnectionParams)
    (credential : Option CredentialParams) : String :=
  let consConf : SVMap := connections.foldl
    (fun acc connection => SVMap.append acc (ConnectionParams.Value connection)) []
  let options : SVMap :=
    match credential with
    | some cred => SVMap.append consConf (CredentialParams.Value cred)
    | none => consConf
  let options := SVMap.remove options "uri"
  let options := SVMap.remove options "host"
  let options := SVMap.remove options "port"
  let options := SVMap.remove options "database"
  let options := SVMap.remove options "username"
  let options := SVMap.remove options "password"
  let params := (SVMap.keys options).foldl
    (fun params key =>
      let params := if params.length > 0 then params ++ "&" else params
      let params := params ++ key
      let value := SVMap.get options key
      if value ≠ "" then params ++ "=" ++ value else params)
    ""
  if params.length > 0 then "?" ++ params else params

/-- MongoDbConnectionResolver.composeUri: if any fragment carries a
literal uri it is returned verbatim; otherwise the mongodb URI is
composed from auth, hosts, database and residual parameters (the
database loop can panic on a fragment lacking the key). -/
def composeUri (connections : List ConnectionParams)
    (credential : Option CredentialParams) : Outcome String :=
  match connections.find? (fun connection => ConnectionParams.Uri connection ≠ "") with
  | some connection => .ok (ConnectionParams.Uri connection)
  | none =>
      match composeDatabaseLoop connections "" with
      | .panicked m => .panicked m
      | .err e => .err e
      | .ok database =>
          .ok ("mongodb://" ++ composeAuth credential ++ composeHosts connections ++
            (if database.length > 0 then "/" ++ database else database) ++
            composeParams connections credential)

/-- MongoDbConnectionResolver.Resolve: the two lookups (connection
fragments and credential) are joined; a connection resolution or
validation failure is checked first (a validation panic aborts the
process), then a credential error, and only then is the URI composed.
The external resolver outcomes are passed in as parameters. -/
def Resolve (correlationId : String)
    (resolveAllResult : Except AppError (List ConnectionParams))
    (lookupResult : Except AppError (Option CredentialParams)) :
    Outcome String :=
  match resolveAllResult with
  | .error e => .err e
  | .ok connections =>
      match validateConnections correlationId connections with
      | .panicked m => .panicked m
      | .err e => .err e
      | .ok _ =>
          match lookupResult with
          | .error e => .err e
          | .ok credential => composeUri connections credential

end MongoDbConnectionResolver

/-- Characters before the first occurrence of a stop character. -/
def takeUntilChar (stop : Char) : List Char → List Char
  | [] => []
  | c :: cs => if c = stop then [] else c :: takeUntilChar stop cs

/-- Characters after the first occurrence of a stop character. -/
def dropThroughChar (stop : Char) : List Char → List Char
  | [] => []
  | c :: cs => if c = stop then cs else dropThroughChar stop cs

/-- The database component of a mongodb URI as extracted by
connstring.Parse (go.mongodb.org driver): the path segment after the
scheme separator and the host list, up to a query string. -/
def connstringDatabase (uri : String) : String :=
  let cs := uri.data
  ⟨takeUntilChar '?' (dropThroughChar '/' (dropThroughChar '/' (dropThroughChar '/' cs)))⟩

instance {ε α : Type} [DecidableEq ε] [DecidableEq α] : DecidableEq (Except ε α)
  | .error e, .error f =>
      if h : e = f then .isTrue (h ▸ rfl) else .isFalse fun hc => h (by cases hc; rfl)
  | .error _, .ok _ => .isFalse fun hc => Except.noConfusion hc
  | .ok _, .error _ => .isFalse fun hc => Except.noConfusion hc
  | .ok a, .ok b =>
      if h : a = b then .isTrue (h ▸ rfl) else .isFalse fun hc => h (by cases hc; rfl)

namespace MongoDbConnection

/-- The mutable fields of a MongoDbConnection that Open and Close touch:
the client handle (Connection), the database handle (Db) and the
database name.  Handles are abstracted to presence. -/
structure State where
  Connection : Option Unit
  Db : Option Unit
  DatabaseName : String
deriving DecidableEq, Repr

/-- A freshly constructed MongoDbConnection: no client, no database. -/
def initState : State := { Connection := none, Db := none, DatabaseName := "" }

/-- MongoDbConnection.IsOpen: true iff the client handle is non-nil. -/
def IsOpen (s : State) : Bool := s.Connection.isSome

/-- The outcomes of the external calls made by MongoDbConnection.Open:
the resolver result, and the causes of a NewClient or Connect failure
when those driver calls fail. -/
structure OpenEnv where
  resolveResult : Except AppError String
  newClientErr : Option String
  connectErr : Option String
deriving DecidableEq, Repr

/-- MongoDbConnection.Open, first variant
(src/persistence/MongoDbConnection.go lines 200 to 235): a resolver
failure is returned unchanged; NewClient failure wraps the cause as
CONNECT_FAILED; the client handle is stored into c.Connection before
Connect is attempted, so a Connect failure returns CONNECT_FAILED with
the handle already retained; on success Db is bound and the database
name is read from the client. -/
def openV1 (correlationId : String) (env : OpenEnv) (s : State) :
    State × Option AppError :=
  match env.resolveResult with
  | .error err => (s, some err)
  | .ok _uri =>
      match env.newClientErr with
      | some cause =>
          (s, some ((NewConnectionError correlationId "CONNECT_FAILED"
            "Connection to mongodb failed").withCause cause))
      | none =>
          let s := { s with Connection := some () }
          match env.connectErr with
          | some cause =>
              (s, some ((NewConnectionError correlationId "CONNECT_FAILED"
                "Connection to mongodb failed").withCause cause))
          | none =>
              ({ s with Db := some (), DatabaseName := "" }, none)

/-- MongoDbConnection.Open, second variant
(src/persistence/MongoDbConnection.go lines 467 to 506): a resolver
failure is returned unchanged; NewClient failure wraps the cause as
CONNECT_FAILED; the database name is parsed from the URI before Connect;
a Connect failure returns CONNECT_FAILED with Connection and Db still
nil; on success the client handle and database are stored. -/
def openV2 (correlationId : String) (env : OpenEnv) (s : State) :
    State × Option AppError :=
  match env.resolveResult with
  | .error err => (s, some err)
  | .ok uri =>
      match env.newClientErr with
      | some cause =>
          (s, some ((NewConnectionError correlationId "CONNECT_FAILED"
            "Create client for mongodb failed").withCause cause))
      | none =>
          let s := { s with DatabaseName := connstringDatabase uri }
          match env.connectErr with
          | some cause =>
              (s, some ((NewConnectionError correlationId "CONNECT_FAILED"
                "Connection to mongodb failed").withCause cause))
          | none =>
              ({ s with Connection := some (), Db := some () }, none)

end MongoDbConnection

namespace MongoDbPersistence

/-- The mutable fields of a MongoDbPersistence that Open and Close touch.
hasConnection models whether c.Connection (the connection component) is
non-nil; Client, Db and Collection are the bound driver handles. -/
structure State where
  opened : Bool
  localConnection : Bool
  hasConnection : Bool
  indexCount : Nat
  Client : Option Unit
  Db : Option Unit
  DatabaseName : String
  Collection : Option Unit
deriving DecidableEq, Repr

/-- MongoDbPersistence.IsOpen: returns the opened flag. -/
def IsOpen (s : State) : Bool := s.opened

/-- A freshly constructed, never opened persistence instance: not
opened, no bound handles, with the given ownership and connection
presence flags and the given number of declared indexes. -/
def freshState (lc hc : Bool) (n : Nat) : State :=
  { opened := false, localConnection := lc, hasConnection := hc, indexCount := n,
    Client := none, Db := none, DatabaseName := "", Collection := none }

/-- The outcomes of the external calls made by MongoDbPersistence.Open:
the result of opening the owned connection, the connection component
state afterwards (its client and database handles and database name),
whether Db.Collection returned nil, and an index creation failure. -/
structure OpenEnv where
  connOpenErr : Option AppError
  connClient : Option Unit
  connDb : Option Unit
  connDbName : String
  collectionIsNil : Bool
  indexErr : Option String
deriving DecidableEq, Repr

/-- MongoDbPersistence.Open (src/persistence/MongoDbPersistence.go lines
326 to 374 and 786 to 834, identical logic): no-op when already opened;
a missing connection component is created locally; the owned connection
is opened; the two error guards fire only when the local open returned
nil, so a non-nil open error falls through to the handle binding, where
the nil database handle is dereferenced (panic); on a nil collection or
an index creation failure Db and Client are reset to nil and a
ConnectionError is returned, but Collection is reset only on the nil
collection path; opened is set true only after every step succeeded. -/
def Open (correlationId : String) (env : OpenEnv) (s : State) :
    State × Outcome Unit :=
  if s.opened then (s, .ok ())
  else
    let s := if s.hasConnection then s
             else { s with hasConnection := true, localConnection := true }
    let s := { s with opened := false }
    let err : Option AppError :=
      if s.localConnection then env.connOpenErr else none
    if err = none ∧ s.hasConnection = false then
      (s, .err (NewInvalidStateError correlationId "NO_CONNECTION"
        "MongoDB connection is missing"))
    else if err = none ∧ env.connClient.isSome = false then
      (s, .err (NewConnectionError correlationId "CONNECT_FAILED"
        "MongoDB connection is not opened"))
    else
      let s := { s with Client := env.connClient, Db := env.connDb,
                        DatabaseName := env.connDbName }
      match env.connDb with
      | none => (s, .panicked "invalid memory address or nil pointer dereference")
      | some _ =>
          let s := { s with Collection :=
            if env.collectionIsNil then none else some () }
          if env.collectionIsNil then
            ({ s with Db := none, Client := none },
             .err (NewConnectionError correlationId "CONNECT_FAILED"
               "Connection to mongodb failed"))
          else if s.indexCount > 0 then
            match env.indexErr with
            | some _ =>
                ({ s with Db := none, Client := none },
                 .err (NewConnectionError correlationId "CREATE_IDX_FAILED"
                   "Recreate indexes failed"))
            | none => ({ s with opened := true }, .ok ())
          else ({ s with opened := true }, .ok ())

end MongoDbPersistence

/-- A driver level error: the typed no-documents sentinel
(mongo.ErrNoDocuments) or any other driver failure with its message. -/
inductive MErr where
  | errNoDocuments
  | driver (msg : String)
deriving DecidableEq, Repr

/-- The outcome of a CRUD call: a value, a returned driver error, or a
Go runtime panic. -/
inductive ExecResult (α : Type) where
  | ok (a : α)
  | err (e : MErr)
  | panicked (msg : String)
deriving DecidableEq, Repr

/-- A stored document: its storage identifier and the remaining fields. -/
structure Doc where
  id : String
  fields : SVMap
deriving DecidableEq, Repr

/-- Injected failures of the driver calls used by the read paths:
a Find or FindOne failure and a CountDocuments failure. -/
structure DbEnv where
  findErr : Option String
  countErr : Option String
deriving DecidableEq, Repr

/-- A DbEnv in which every driver call succeeds. -/
def DbEnv.allOk : DbEnv := { findErr := none, countErr := none }

/-- cdata.PagingParams from pip-services3-commons-go. -/
structure PagingParams where
  Skip : Option Int
  Take : Option Int
  Total : Bool
deriving DecidableEq, Repr

namespace PagingParams

/-- cdata.NewEmptyPagingParams. -/
def empty : PagingParams := { Skip := none, Take := none, Total := false }

/-- PagingParams.GetSkip. -/
def GetSkip (p : PagingParams) (minSkip : Int) : Int :=
  match p.Skip with
  | none => minSkip
  | some s => if s < minSkip then minSkip else s

/-- PagingParams.GetTake. -/
def GetTake (p : PagingParams) (maxTake : Int) : Int :=
  match p.Take with
  | none => maxTake
  | some t => if t < 0 then 0 else if t > maxTake then maxTake else t

end PagingParams

/-- cdata.DataPage: the result envelope of a paged read. -/
structure DataPage where
  Total : Int
  Data : List Doc
deriving DecidableEq, Repr

/-- Collection.CountDocuments on the store model: the number of
documents matching the filter. -/
def countDocuments (store : List Doc) (filter : Doc → Bool) : Int :=
  ((store.filter filter).length : Int)

/-- The cursor produced by Collection.Find with Skip and Limit options
on the store model: matching documents, then skip (only applied when
non-negative, mirroring the option being set only for skip at least 0),
then limit (a limit of 0 means no limit, as in the driver). -/
def findDocs (store : List Doc) (filter : Doc → Bool) (skip take : Int) :
    List Doc :=
  let matching := store.filter filter
  let afterSkip := if skip ≥ 0 then matching.drop skip.toNat else matching
  if take = 0 then afterSkip else afterSkip.take take.natAbs

namespace MongoDbPersistence

/-- MongoDbPersistence.GetPageByFilter
(src/persistence/MongoDbPersistence.go lines 899 to 948; the
IdentifiableMongoDbPersistence variant in src/unnamed/part_004 lines 723
to 773 has the same body): skip and take are derived from the paging
parameters, a Find failure returns an empty page of total 0 with the
error, decoded items are collected, and only when paging requests a
total is CountDocuments run over the same filter, its error being
discarded with the underscore pattern; otherwise the total is 0. -/
def GetPageByFilter (correlationId : String) (env : DbEnv) (store : List Doc)
    (filter : Doc → Bool) (paging : Option PagingParams) (maxPageSize : Int) :
    DataPage × Option MErr :=
  let paging := paging.getD PagingParams.empty
  let skip := paging.GetSkip (-1)
  let take := paging.GetTake maxPageSize
  let pagingEnabled := paging.Total
  match env.findErr with
  | some m => ({ Total := 0, Data := [] }, some (.driver m))
  | none =>
      let items := findDocs store filter skip take
      if pagingEnabled then
        let docCount : Int :=
          if env.countErr.isSome then 0 else countDocuments store filter
        ({ Total := docCount, Data := items }, none)
      else
        ({ Total := 0, Data := items }, none)

/-- MongoDbPersistence.GetCountByFilter
(src/persistence/MongoDbPersistence.go lines 1092 to 1100): a
passthrough CountDocuments, returning the driver count and error. -/
def GetCountByFilter (correlationId : String) (env : DbEnv) (store : List Doc)
    (filter : Doc → Bool) : Int × Option MErr :=
  match env.countErr with
  | some m => (0, some (.driver m))
  | none => (countDocuments store filter, none)

/-- MongoDbPersistence.GetOneRandom
(src/persistence/MongoDbPersistence.go lines 1008 to 1036; the
IdentifiableMongoDbPersistence variant in src/unnamed/part_004 lines 875
to 904 has the same body): counts the matching documents, then calls
rand.Int63n(docCount), which panics for a non-positive argument — the
clamp of a negative offset that follows it is unreachable.  The random
draw is modelled by r, reduced modulo the count as Int63n does.  The
subsequent Find uses Skip = offset and Limit = 1, and cursor.Decode is
invoked without cursor.Next, so the decode of the empty current document
fails. -/
def GetOneRandom (correlationId : String) (env : DbEnv) (store : List Doc)
    (filter : Doc → Bool) (r : Nat) : ExecResult (Option Doc) :=
  match env.countErr with
  | some m => .err (.driver m)
  | none =>
      let docCount : Int := countDocuments store filter
      if docCount ≤ 0 then .panicked "invalid argument to Int63n"
      else
        let itemNum : Int := (r : Int) % docCount
        let itemNum := if itemNum < 0 then 0 else itemNum
        match env.findErr with
        | some m => .err (.driver m)
        | none =>
            let _cursor := findDocs store filter itemNum 1
            .err (.driver "invalid document length")

/-- The injected outcome of Collection.DeleteMany: an error message when
the call fails, and whether the driver returned a nil DeleteResult
alongside the error (the driver returns nil for command and connection
failures, and a non-nil result for write concern errors). -/
structure DeleteEnv where
  deleteErr : Option String
  deleteResIsNil : Bool
deriving DecidableEq, Repr

/-- MongoDbPersistence.DeleteByFilter
(src/persistence/MongoDbPersistence.go lines 1073 to 1081; the
IdentifiableMongoDbPersistence variant in src/unnamed/part_004 lines
1102 to 1110 has the same body): delRes.DeletedCount is read before
delErr is checked, so a failure that comes with a nil DeleteResult
dereferences the nil pointer; a failure with a non-nil result is
returned unchanged; on success the matching documents are removed. -/
def DeleteByFilter (correlationId : String) (env : DeleteEnv)
    (store : List Doc) (filter : Doc → Bool) : List Doc × ExecResult Unit :=
  match env.deleteErr with
  | none => (store.filter (fun d => !filter d), .ok ())
  | some m =>
      if env.deleteResIsNil then
        (store, .panicked "invalid memory address or nil pointer dereference")
      else (store, .err (.driver m))

end MongoDbPersistence

/-- The first stored document with the given storage identifier. -/
def findOneDoc (store : List Doc) (id : String) : Option Doc :=
  store.find? (fun d => d.id = id)

namespace IdentifiableMongoDbPersistence

/-- IdentifiableMongoDbPersistence.GetOneById
(src/unnamed/part_004 lines 847 to 863): FindOne by storage id, then
Decode; a decode error equal to mongo.ErrNoDocuments is mapped to a nil
item with a nil error, any other failure is returned, and a found
document is returned as the item. -/
def GetOneById (correlationId : String) (env : DbEnv) (store : List Doc)
    (id : String) : ExecResult (Option Doc) :=
  match env.findErr with
  | some m => .err (.driver m)
  | none =>
      match findOneDoc store id with
      | some d => .ok (some d)
      | none => .ok none

/-- IdentifiableMongoDbPersistence.DeleteById
(src/unnamed/part_004 lines 1071 to 1090): FindOneAndDelete by storage
id, then fdRes.Err() is checked before Decode; with driver v1.11.1 Err()
reports mongo.ErrNoDocuments when nothing matched, so that sentinel is
returned as the error and the ErrNoDocuments-to-nil branch after Decode
is unreachable; a deleted document is removed from the store and
returned. -/
def DeleteById (correlationId : String) (env : DbEnv) (store : List Doc)
    (id : String) : List Doc × ExecResult (Option Doc) :=
  match env.findErr with
  | some m => (store, .err (.driver m))
  | none =>
      match findOneDoc store id with
      | none => (store, .err .errNoDocuments)
      | some d => (store.eraseP (fun x => x.id = id), .ok (some d))

/-- The effect of a dollar-set update document on a stored document:
each supplied field is written over the stored fields, every other
field left untouched (the update operator of the underlying store). -/
def applySet (d : Doc) (setFields : SVMap) : Doc :=
  { d with fields := setFields.foldl (fun fs kv => SVMap.put fs kv.1 kv.2) d.fields }

/-- Collection.FindOneAndUpdate with a dollar-set update and
ReturnDocument = After on the store model: the matched document is
rewritten in place and the post-update document returned; no match
yields none. -/
def findOneAndUpdateSet (store : List Doc) (id : String) (setFields : SVMap) :
    List Doc × Option Doc :=
  match findOneDoc store id with
  | none => (store, none)
  | some d =>
      let d2 := applySet d setFields
      (store.map (fun x => if x.id = id then d2 else x), some d2)

/-- IdentifiableMongoDbPersistence.UpdatePartially
(src/unnamed/part_004 lines 1031 to 1061): a nil id is a no-op success;
the update document copies exactly the supplied field map into a fresh
map and sends it as a dollar-set keyed by the storage id with
ReturnDocument = After; fuRes.Err() is checked before Decode, so a
no-match reports the ErrNoDocuments sentinel. -/
def UpdatePartially (correlationId : String) (env : DbEnv) (store : List Doc)
    (id : Option String) (data : SVMap) : List Doc × ExecResult (Option Doc) :=
  match id with
  | none => (store, .ok none)
  | some id =>
      let newItem : SVMap := data.foldl (fun m kv => SVMap.put m kv.1 kv.2) []
      match env.findErr with
      | some m => (store, .err (.driver m))
      | none =>
          match findOneAndUpdateSet store id newItem with
          | (store2, some d2) => (store2, .ok (some d2))
          | (store2, none) => (store2, .err .errNoDocuments)

/-- IdentifiableMongoDbPersistence.Update
(src/unnamed/part_004 lines 990 to 1019): a nil item is a no-op success;
the clone of the whole item is sent as a full-document dollar-set keyed
by its id with ReturnDocument = After. -/
def Update (correlationId : String) (env : DbEnv) (store : List Doc)
    (item : Option Doc) : List Doc × ExecResult (Option Doc) :=
  match item with
  | none => (store, .ok none)
  | some item =>
      match env.findErr with
      | some m => (store, .err (.driver m))
      | none =>
          match findOneAndUpdateSet store item.id item.fields with
          | (store2, some d2) => (store2, .ok (some d2))
          | (store2, none) => (store2, .err .errNoDocuments)

end IdentifiableMongoDbPersistence

end MongoDb

namespace MongoDb

/-- C6: for the single connection fragment with host localhost, port
27017 and database test, and no resolved credential, Resolve returns
the URI mongodb://localhost:27017/test with a nil error — no trailing
question mark, no auth segment, no extra query parameters. -/
theorem resolve_uri_composition_example :
    MongoDbConnectionResolver.Resolve ""
      (.ok [[("host", "localhost"), ("port", "27017"), ("database", "test")]])
      (.ok none) = .ok "mongodb://localhost:27017/test" := rfl

/-- C3: GetOneById of an absent id is a success with a nil item, and
delete-then-get of a present id leaves a nil result with no error; but
DeleteById of an absent id returns the ErrNoDocuments sentinel as an
error, because fdRes.Err() is checked before the dead
ErrNoDocuments-to-nil branch after Decode — evaluated at the failing
input (an id with no matching stored document). -/
theorem deleteById_absent_id_errors :
    IdentifiableMongoDbPersistence.GetOneById "" DbEnv.allOk [] "1" = .ok none
  ∧ IdentifiableMongoDbPersistence.DeleteById "" DbEnv.allOk
      [{ id := "1", fields := [("name", "A")] }] "1"
      = ([], .ok (some { id := "1", fields := [("name", "A")] }))
  ∧ IdentifiableMongoDbPersistence.GetOneById "" DbEnv.allOk
      (IdentifiableMongoDbPersistence.DeleteById "" DbEnv.allOk
        [{ id := "1", fields := [("name", "A")] }] "1").1 "1" = .ok none
  ∧ IdentifiableMongoDbPersistence.DeleteById "" DbEnv.allOk [] "1"
      = ([], .err .errNoDocuments) :=
  ⟨rfl, rfl, rfl, rfl⟩

/-- C7: when the filter matches zero documents, GetOneRandom reaches
rand.Int63n with a zero argument and panics instead of using offset 0 —
evaluated at the failing input (an empty match set). -/
theorem getOneRandom_zero_count_panics :
    MongoDbPersistence.GetOneRandom "" DbEnv.allOk [] (fun _ => true) 0
      = .panicked "invalid argument to Int63n"
  ∧ MongoDbPersistence.GetOneRandom "" DbEnv.allOk [{ id := "1", fields := [] }]
      (fun d => d.id == "2") 5
      = .panicked "invalid argument to Int63n" :=
  ⟨rfl, rfl⟩

/-- C9: when DeleteMany fails and the driver returns a nil DeleteResult
(the command or connection failure case), DeleteByFilter dereferences
the nil result while reading DeletedCount before the error check and
panics instead of returning the driver error — evaluated at the failing
input; a failure that comes with a non-nil result is returned
unchanged. -/
theorem deleteByFilter_nil_result_panics :
    MongoDbPersistence.DeleteByFilter ""
      { deleteErr := some "network error", deleteResIsNil := true }
      [{ id := "1", fields := [] }] (fun _ => true)
      = ([{ id := "1", fields := [] }],
         .panicked "invalid memory address or nil pointer dereference")
  ∧ MongoDbPersistence.DeleteByFilter ""
      { deleteErr := some "write concern error", deleteResIsNil := false }
      [{ id := "1", fields := [] }] (fun _ => true)
      = ([{ id := "1", fields := [] }], .err (.driver "write concern error")) :=
  ⟨rfl, rfl⟩

end MongoDb

namespace MongoDb

/-- Helper: the validateConnections fragment loop returns the first
non-successful validation result after a prefix of successes. -/
theorem validateConnectionsLoop_first (correlationId : String) :
    ∀ (pre : List ConnectionParams),
      (∀ x ∈ pre, MongoDbConnectionResolver.validateConnection correlationId x = .ok ()) →
      ∀ (c : ConnectionParams) (post : List ConnectionParams) (r : Outcome Unit),
        MongoDbConnectionResolver.validateConnection correlationId c = r →
        r ≠ .ok () →
        MongoDbConnectionResolver.validateConnectionsLoop correlationId (pre ++ c :: post)
          = r := by
  intro pre
  induction pre with
  | nil =>
      intro _ c post r hc hr
      cases r with
      | ok u => cases u; exact absurd rfl hr
      | err e =>
          simp only [List.nil_append, MongoDbConnectionResolver.validateConnectionsLoop, hc]
      | panicked m =>
          simp only [List.nil_append, MongoDbConnectionResolver.validateConnectionsLoop, hc]
  | cons a l ih =>
      intro hall c post r hc hr
      have ha : MongoDbConnectionResolver.validateConnection correlationId a = .ok () :=
        hall a (by simp)
      simp only [List.cons_append, MongoDbConnectionResolver.validateConnectionsLoop, ha]
      exact ih (fun x hx => hall x (by simp [hx])) c post r hc hr

/-- C5: an empty fragment list fails with the NO_CONNECTION ConfigError;
a fragment is valid iff it carries a non-empty full URI or has non-empty
host, non-zero port and a present non-empty database; a fragment with an
empty host or a zero port fails with NO_HOST or NO_PORT; a fragment
whose database value is present but empty fails with NO_DATABASE, while
a fragment lacking the database key altogether panics on a nil pointer
dereference instead of failing with NO_DATABASE (the divergence);
validation stops at the first offending fragment, and Resolve returns no
URI on any validation failure. -/
theorem resolver_validation_spec (correlationId : String) :
    (MongoDbConnectionResolver.validateConnections correlationId [] =
        .err (NewConfigError correlationId "NO_CONNECTION" "Database connection is not set"))
  ∧ (∀ c, MongoDbConnectionResolver.validateConnection correlationId c = .ok () ↔
        (ConnectionParams.Uri c ≠ "" ∨
          (ConnectionParams.Host c ≠ "" ∧ ConnectionParams.Port c ≠ 0 ∧
            (∃ db, SVMap.getAsNullableString c "database" = some db ∧ db ≠ ""))))
  ∧ (∀ c, ConnectionParams.Uri c = "" → ConnectionParams.Host c = "" →
        MongoDbConnectionResolver.validateConnection correlationId c =
          .err (NewConfigError correlationId "NO_HOST" "Connection host is not set"))
  ∧ (∀ c, ConnectionParams.Uri c = "" → ConnectionParams.Host c ≠ "" →
        ConnectionParams.Port c = 0 →
        MongoDbConnectionResolver.validateConnection correlationId c =
          .err (NewConfigError correlationId "NO_PORT" "Connection port is not set"))
  ∧ (∀ c, ConnectionParams.Uri c = "" → ConnectionParams.Host c ≠ "" →
        ConnectionParams.Port c ≠ 0 →
        SVMap.getAsNullableString c "database" = some "" →
        MongoDbConnectionResolver.validateConnection correlationId c =
          .err (NewConfigError correlationId "NO_DATABASE" "Connection database is not set"))
  ∧ (∀ c, ConnectionParams.Uri c = "" → ConnectionParams.Host c ≠ "" →
        ConnectionParams.Port c ≠ 0 →
        SVMap.getAsNullableString c "database" = none →
        MongoDbConnectionResolver.validateConnection correlationId c =
          .panicked "invalid memory address or nil pointer dereference")
  ∧ (∀ pre c post r, (∀ x ∈ pre,
        MongoDbConnectionResolver.validateConnection correlationId x = .ok ()) →
        MongoDbConnectionResolver.validateConnection correlationId c = r →
        r ≠ .ok () →
        MongoDbConnectionResolver.validateConnections correlationId (pre ++ c :: post)
          = r)
  ∧ (∀ conns lookupResult e,
        MongoDbConnectionResolver.validateConnections correlationId conns = .err e →
        MongoDbConnectionResolver.Resolve correlationId (.ok conns) lookupResult
          = .err e)
  ∧ (∀ conns lookupResult m,
        MongoDbConnectionResolver.validateConnections correlationId conns = .panicked m →
        MongoDbConnectionResolver.Resolve correlationId (.ok conns) lookupResult
          = .panicked m) := by
  refine ⟨rfl, ?_, ?_, ?_, ?_, ?_, ?_, ?_, ?_⟩
  · intro c
    simp only [MongoDbConnectionResolver.validateConnection]
    split_ifs with h1 h2 h3
    · simp_all
    · simp_all
    · simp_all
    · cases hdb : SVMap.getAsNullableString c "database" with
      | none => simp_all
      | some db =>
          by_cases hdbe : db = "" <;> simp_all
  · intro c h1 h2
    simp [MongoDbConnectionResolver.validateConnection, h1, h2]
  · intro c h1 h2 h3
    simp [MongoDbConnectionResolver.validateConnection, h1, h2, h3]
  · intro c h1 h2 h3 h4
    simp [MongoDbConnectionResolver.validateConnection, h1, h2, h3, h4]
  · intro c h1 h2 h3 h4
    simp [MongoDbConnectionResolver.validateConnection, h1, h2, h3, h4]
  · intro pre c post r hall hc hr
    have hne : (pre ++ c :: post).isEmpty = false := by simp
    simp only [MongoDbConnectionResolver.validateConnections, hne]
    simp only [Bool.false_eq_true, if_false]
    exact validateConnectionsLoop_first correlationId pre hall c post r hc hr
  · intro conns lookupResult e hv
    simp [MongoDbConnectionResolver.Resolve, hv]
  · intro conns lookupResult m hv
    simp [MongoDbConnectionResolver.Resolve, hv]

/-- Witness for C5: a fragment that only carries a port is rejected with
NO_HOST, and a fragment with host and port but no database key at all
panics instead of failing with NO_DATABASE (the failing input). -/
theorem resolver_validation_spec_witness :
    MongoDbConnectionResolver.validateConnection "" [("port", "1")]
      = .err (NewConfigError "" "NO_HOST" "Connection host is not set")
  ∧ MongoDbConnectionResolver.validateConnection ""
      [("host", "localhost"), ("port", "27017")]
      = .panicked "invalid memory address or nil pointer dereference" :=
  ⟨(resolver_validation_spec "").2.2.1 [("port", "1")] rfl rfl,
   (resolver_validation_spec "").2.2.2.2.2.1 [("host", "localhost"), ("port", "27017")]
     rfl (by decide) (by decide) rfl⟩

/-- Counterexample to C2: in the first Open variant the client handle is
assigned before Connect, so a connect-step failure returns a
CONNECT_FAILED error while the client handle is retained and IsOpen
reports true. -/
theorem connectionOpen_connect_failure_retains_client :
    MongoDbConnection.openV1 ""
      { resolveResult := .ok "mongodb://localhost:27017/test",
        newClientErr := none, connectErr := some "connection refused" }
      MongoDbConnection.initState
      = ({ Connection := some (), Db := none, DatabaseName := "" },
         some ((NewConnectionError "" "CONNECT_FAILED"
           "Connection to mongodb failed").withCause "connection refused"))
  ∧ MongoDbConnection.IsOpen
      { Connection := some (), Db := none, DatabaseName := "" } = true :=
  ⟨rfl, rfl⟩

/-- C2 (amended): in the second Open variant every failure leaves
Connection and Db nil and IsOpen false; a resolver failure is returned
unchanged (in both variants, with no state change); after a successful
resolution any failure is a CONNECT_FAILED ConnectionError wrapping the
cause; in the first variant the client handle survives a failed Open
exactly when the failure happened at the connect step. -/
theorem connectionOpen_failure_state (correlationId : String)
    (env : MongoDbConnection.OpenEnv) :
    ((MongoDbConnection.openV2 correlationId env MongoDbConnection.initState).2.isSome = true →
      (MongoDbConnection.openV2 correlationId env MongoDbConnection.initState).1.Connection = none ∧
      (MongoDbConnection.openV2 correlationId env MongoDbConnection.initState).1.Db = none ∧
      MongoDbConnection.IsOpen
        (MongoDbConnection.openV2 correlationId env MongoDbConnection.initState).1 = false)
  ∧ (∀ e0, env.resolveResult = .error e0 →
      MongoDbConnection.openV2 correlationId env MongoDbConnection.initState
        = (MongoDbConnection.initState, some e0) ∧
      MongoDbConnection.openV1 correlationId env MongoDbConnection.initState
        = (MongoDbConnection.initState, some e0))
  ∧ (∀ uri e, env.resolveResult = .ok uri →
      (MongoDbConnection.openV2 correlationId env MongoDbConnection.initState).2 = some e →
      e.category = "ConnectionError" ∧ e.code = "CONNECT_FAILED" ∧ e.cause.isSome = true)
  ∧ ((MongoDbConnection.openV1 correlationId env MongoDbConnection.initState).2.isSome = true →
      (MongoDbConnection.openV1 correlationId env MongoDbConnection.initState).1.Db = none)
  ∧ (MongoDbConnection.IsOpen
        (MongoDbConnection.openV1 correlationId env MongoDbConnection.initState).1 = true ∧
      (MongoDbConnection.openV1 correlationId env MongoDbConnection.initState).2.isSome = true ↔
        (∃ uri, env.resolveResult = .ok uri) ∧ env.newClientErr = none ∧
          env.connectErr.isSome = true) := by
  obtain ⟨rr, nce, ce⟩ := env
  cases rr <;> cases nce <;> cases ce <;>
    simp_all [MongoDbConnection.openV2, MongoDbConnection.openV1,
      MongoDbConnection.initState, MongoDbConnection.IsOpen,
      AppError.withCause, NewConnectionError]

/-- Witness for C2 (amended): a NO_HOST resolver failure is returned
unchanged by both Open variants, with the state untouched. -/
theorem connectionOpen_failure_state_witness :
    MongoDbConnection.openV2 ""
      { resolveResult := .error (NewConfigError "" "NO_HOST" "Connection host is not set"),
        newClientErr := none, connectErr := none }
      MongoDbConnection.initState
      = (MongoDbConnection.initState,
         some (NewConfigError "" "NO_HOST" "Connection host is not set"))
  ∧ MongoDbConnection.openV1 ""
      { resolveResult := .error (NewConfigError "" "NO_HOST" "Connection host is not set"),
        newClientErr := none, connectErr := none }
      MongoDbConnection.initState
      = (MongoDbConnection.initState,
         some (NewConfigError "" "NO_HOST" "Connection host is not set")) :=
  (connectionOpen_failure_state ""
    { resolveResult := .error (NewConfigError "" "NO_HOST" "Connection host is not set"),
      newClientErr := none, connectErr := none }).2.1
    (NewConfigError "" "NO_HOST" "Connection host is not set") rfl

/-- Counterexample to C1: on an index-creation failure Open returns a
CREATE_IDX_FAILED ConnectionError and resets Db and Client to nil, but
the Collection reference is retained (not rolled back to nil). -/
theorem persistenceOpen_index_failure_keeps_collection :
    MongoDbPersistence.Open ""
      { connOpenErr := none, connClient := some (), connDb := some (),
        connDbName := "test", collectionIsNil := false, indexErr := some "duplicate key" }
      { opened := false, localConnection := false, hasConnection := true,
        indexCount := 1, Client := none, Db := none, DatabaseName := "",
        Collection := none }
      = ({ opened := false, localConnection := false, hasConnection := true,
           indexCount := 1, Client := none, Db := none, DatabaseName := "test",
           Collection := some () },
         .err (NewConnectionError "" "CREATE_IDX_FAILED" "Recreate indexes failed"))
  ∧ ({ opened := false, localConnection := false, hasConnection := true,
       indexCount := 1, Client := none, Db := none, DatabaseName := "test",
       Collection := some () } : MongoDbPersistence.State).Collection ≠ none :=
  ⟨rfl, by decide⟩

/-- C1 (amended): on a fresh instance, whenever Open returns an error the
opened flag stays false, Client and Db are nil, and the surfaced error is
a typed ConnectionError; Collection is nil on every error return except
the index-creation failure, where the Collection reference is retained;
and a failed open of a locally-owned Connection is not returned as an
error at all — the guards require a nil error, so execution falls
through and panics dereferencing the nil database handle. -/
theorem persistenceOpen_failure_state (correlationId : String)
    (env : MongoDbPersistence.OpenEnv) (lc hc : Bool) (n : Nat) :
    (∀ e, (MongoDbPersistence.Open correlationId env
        (MongoDbPersistence.freshState lc hc n)).2 = .err e →
      MongoDbPersistence.IsOpen (MongoDbPersistence.Open correlationId env
        (MongoDbPersistence.freshState lc hc n)).1 = false ∧
      (MongoDbPersistence.Open correlationId env
        (MongoDbPersistence.freshState lc hc n)).1.Client = none ∧
      (MongoDbPersistence.Open correlationId env
        (MongoDbPersistence.freshState lc hc n)).1.Db = none ∧
      e.category = "ConnectionError" ∧
      (e.code = "CREATE_IDX_FAILED" →
        (MongoDbPersistence.Open correlationId env
          (MongoDbPersistence.freshState lc hc n)).1.Collection = some ()) ∧
      (e.code ≠ "CREATE_IDX_FAILED" →
        (MongoDbPersistence.Open correlationId env
          (MongoDbPersistence.freshState lc hc n)).1.Collection = none))
  ∧ ((lc = true ∨ hc = false) → env.connOpenErr.isSome = true → env.connDb = none →
      (MongoDbPersistence.Open correlationId env
        (MongoDbPersistence.freshState lc hc n)).2
        = .panicked "invalid memory address or nil pointer dereference") := by
  obtain ⟨coe, cc, cdb, cdn, cin, ie⟩ := env
  cases lc <;> cases hc <;> cases coe <;> cases cc <;> cases cdb <;> cases cin <;>
    cases ie <;> cases n <;>
    simp_all [MongoDbPersistence.Open, MongoDbPersistence.freshState,
      MongoDbPersistence.IsOpen, NewConnectionError, NewInvalidStateError]

/-- Witness for C1 (amended): a nil collection handle yields a
CONNECT_FAILED error return with opened still false. -/
theorem persistenceOpen_failure_state_witness :
    (MongoDbPersistence.Open ""
      { connOpenErr := none, connClient := some (), connDb := some (),
        connDbName := "test", collectionIsNil := true, indexErr := none }
      (MongoDbPersistence.freshState false true 0)).2
      = .err (NewConnectionError "" "CONNECT_FAILED" "Connection to mongodb failed")
  ∧ MongoDbPersistence.IsOpen (MongoDbPersistence.Open ""
      { connOpenErr := none, connClient := some (), connDb := some (),
        connDbName := "test", collectionIsNil := true, indexErr := none }
      (MongoDbPersistence.freshState false true 0)).1 = false :=
  ⟨rfl, ((persistenceOpen_failure_state ""
    { connOpenErr := none, connClient := some (), connDb := some (),
      connDbName := "test", collectionIsNil := true, indexErr := none }
    false true 0).1
    (NewConnectionError "" "CONNECT_FAILED" "Connection to mongodb failed") rfl).1⟩

/-- C4: with a working driver, GetPageByFilter returns no error; when the
paging parameters request a total the page total equals the value
GetCountByFilter returns for the same filter; otherwise the total is 0;
and the item list is unaffected by the total flag. -/
theorem getPageByFilter_total_semantics (correlationId : String) (store : List Doc)
    (filter : Doc → Bool) (p : PagingParams) (maxPageSize : Int) :
    ((MongoDbPersistence.GetPageByFilter correlationId DbEnv.allOk store filter
        (some p) maxPageSize).2 = none)
  ∧ (p.Total = true →
      (MongoDbPersistence.GetPageByFilter correlationId DbEnv.allOk store filter
        (some p) maxPageSize).1.Total
        = (MongoDbPersistence.GetCountByFilter correlationId DbEnv.allOk store filter).1)
  ∧ (p.Total = false →
      (MongoDbPersistence.GetPageByFilter correlationId DbEnv.allOk store filter
        (some p) maxPageSize).1.Total = 0)
  ∧ ((MongoDbPersistence.GetPageByFilter correlationId DbEnv.allOk store filter
        (some { p with Total := true }) maxPageSize).1.Data
      = (MongoDbPersistence.GetPageByFilter correlationId DbEnv.allOk store filter
        (some { p with Total := false }) maxPageSize).1.Data) := by
  refine ⟨?_, ?_, ?_, ?_⟩
  · cases hT : p.Total <;>
      simp [MongoDbPersistence.GetPageByFilter, DbEnv.allOk, hT]
  · intro h
    simp [MongoDbPersistence.GetPageByFilter, MongoDbPersistence.GetCountByFilter,
      DbEnv.allOk, h]
  · intro h
    simp [MongoDbPersistence.GetPageByFilter, DbEnv.allOk, h]
  · simp [MongoDbPersistence.GetPageByFilter, DbEnv.allOk,
      PagingParams.GetSkip, PagingParams.GetTake]

/-- Witness for C4: a one-document store with a total-requesting page. -/
theorem getPageByFilter_total_semantics_witness :
    ({ Skip := none, Take := none, Total := true } : PagingParams).Total = true
  ∧ (MongoDbPersistence.GetPageByFilter "" DbEnv.allOk [{ id := "1", fields := [] }]
      (fun _ => true) (some { Skip := none, Take := none, Total := true }) 100).1.Total
      = (MongoDbPersistence.GetCountByFilter "" DbEnv.allOk [{ id := "1", fields := [] }]
        (fun _ => true)).1 :=
  ⟨rfl, (getPageByFilter_total_semantics "" [{ id := "1", fields := [] }]
    (fun _ => true) { Skip := none, Take := none, Total := true } 100).2.1 rfl⟩

/-- C10: when a total is requested and CountDocuments fails, the failure
is silently discarded — GetPageByFilter still returns the page of
decoded items with a nil error, the total taken from the failed count's
zero value. -/
theorem getPageByFilter_count_failure_discarded (correlationId : String)
    (store : List Doc) (filter : Doc → Bool) (p : PagingParams)
    (maxPageSize : Int) (m : String) (h : p.Total = true) :
    MongoDbPersistence.GetPageByFilter correlationId
        { findErr := none, countErr := some m } store filter (some p) maxPageSize
      = ({ Total := 0,
           Data := (MongoDbPersistence.GetPageByFilter correlationId DbEnv.allOk
             store filter (some p) maxPageSize).1.Data },
         none) := by
  simp [MongoDbPersistence.GetPageByFilter, DbEnv.allOk, h]

/-- Witness for C10: a failing count on a one-document store. -/
theorem getPageByFilter_count_failure_discarded_witness :
    ({ Skip := none, Take := none, Total := true } : PagingParams).Total = true
  ∧ MongoDbPersistence.GetPageByFilter ""
      { findErr := none, countErr := some "count failed" }
      [{ id := "1", fields := [] }] (fun _ => true)
      (some { Skip := none, Take := none, Total := true }) 100
      = ({ Total := 0,
           Data := (MongoDbPersistence.GetPageByFilter "" DbEnv.allOk
             [{ id := "1", fields := [] }] (fun _ => true)
             (some { Skip := none, Take := none, Total := true }) 100).1.Data },
         none) :=
  ⟨rfl, getPageByFilter_count_failure_discarded "" [{ id := "1", fields := [] }]
    (fun _ => true) { Skip := none, Take := none, Total := true } 100 "count failed" rfl⟩

/-- Helper: looking up a key different from the one written by put is
unchanged. -/
theorem lookup_put_of_ne (m : List (String × String)) (key v k : String)
    (h : k ≠ key) :
    List.lookup k (SVMap.put m key v) = List.lookup k m := by
  have hb : (k == key) = false := beq_eq_false_iff_ne.mpr h
  induction m with
  | nil => simp only [SVMap.put, List.lookup, hb]
  | cons a rest ih =>
      obtain ⟨ka, va⟩ := a
      simp only [SVMap.put]
      by_cases hk : ka = key
      · subst hk
        simp only [if_pos rfl, List.lookup, hb]
      · rw [if_neg hk]
        simp only [List.lookup, ih]

/-- Helper: every entry of put either carries the written key or was
already present. -/
theorem mem_put (m : List (String × String)) (key v : String)
    (q : String × String) (hq : q ∈ SVMap.put m key v) : q.1 = key ∨ q ∈ m := by
  induction m with
  | nil =>
      rw [show SVMap.put [] key v = [(key, v)] from rfl, List.mem_singleton] at hq
      subst hq; left; rfl
  | cons a rest ih =>
      obtain ⟨ka, va⟩ := a
      simp only [SVMap.put] at hq
      by_cases hk : ka = key
      · rw [if_pos hk] at hq
        rcases List.mem_cons.mp hq with h1 | h1
        · subst h1; left; exact hk
        · right; exact List.mem_cons_of_mem _ h1
      · rw [if_neg hk] at hq
        rcases List.mem_cons.mp hq with h1 | h1
        · subst h1; right; exact List.mem_cons_self _ _
        · rcases ih h1 with h2 | h2
          · left; exact h2
          · right; exact List.mem_cons_of_mem _ h2

/-- Helper: folding put over entries whose keys all differ from k leaves
the lookup of k unchanged. -/
theorem lookup_foldl_put (k : String) :
    ∀ (l acc : List (String × String)), (∀ p ∈ l, p.1 ≠ k) →
      List.lookup k (l.foldl (fun m kv => SVMap.put m kv.1 kv.2) acc)
        = List.lookup k acc := by
  intro l
  induction l with
  | nil => intro acc _; rfl
  | cons a rest ih =>
      intro acc hall
      simp only [List.foldl_cons]
      rw [ih _ (fun p hp => hall p (by simp [hp]))]
      exact lookup_put_of_ne acc a.1 a.2 k (Ne.symm (hall a (by simp)))

/-- Helper: every entry of a put-fold comes from the accumulator or
shares a key with a folded entry. -/
theorem mem_foldl_put (q : String × String) :
    ∀ (l acc : List (String × String)),
      q ∈ l.foldl (fun m kv => SVMap.put m kv.1 kv.2) acc →
      q ∈ acc ∨ ∃ p ∈ l, q.1 = p.1 := by
  intro l
  induction l with
  | nil => intro acc h; exact .inl h
  | cons a rest ih =>
      intro acc h
      rcases ih _ h with h1 | ⟨p, hp, hq⟩
      · rcases mem_put acc a.1 a.2 q h1 with h2 | h2
        · right; exact ⟨a, by simp, h2⟩
        · left; exact h2
      · right; exact ⟨p, by simp [hp], hq⟩

/-- Helper: a none lookup means no entry carries the key. -/
theorem lookup_eq_none_forall (k : String) :
    ∀ (l : List (String × String)), List.lookup k l = none →
      ∀ p ∈ l, p.1 ≠ k := by
  intro l
  induction l with
  | nil => intro _ p hp; cases hp
  | cons a rest ih =>
      intro h p hp
      obtain ⟨ka, va⟩ := a
      by_cases hk : k = ka
      · exfalso
        have hb : (k == ka) = true := beq_iff_eq.mpr hk
        simp only [List.lookup, hb] at h
        exact Option.noConfusion h
      · have hb : (k == ka) = false := beq_eq_false_iff_ne.mpr hk
        simp only [List.lookup, hb] at h
        rcases List.mem_cons.mp hp with hp1 | hp1
        · subst hp1; exact fun hh => hk hh.symm
        · exact ih h p hp1

/-- C8: UpdatePartially applies only the supplied field map as a
dollar-set: the stored document is rewritten to the post-update document
returned, whose identifier is unchanged and whose every field not named
in the field map retains exactly its pre-update value. -/
theorem updatePartially_frame (correlationId : String) (store : List Doc)
    (id : String) (data : SVMap) (d : Doc)
    (hfind : findOneDoc store id = some d) :
    ∃ d2, IdentifiableMongoDbPersistence.UpdatePartially correlationId DbEnv.allOk
        store (some id) data
        = (store.map (fun x => if x.id = id then d2 else x), .ok (some d2))
      ∧ d2.id = d.id
      ∧ (∀ k, List.lookup k data = none →
          List.lookup k d2.fields = List.lookup k d.fields) := by
  refine ⟨IdentifiableMongoDbPersistence.applySet d
      (data.foldl (fun m kv => SVMap.put m kv.1 kv.2) []), ?_, rfl, ?_⟩
  · simp [IdentifiableMongoDbPersistence.UpdatePartially,
      IdentifiableMongoDbPersistence.findOneAndUpdateSet, hfind, DbEnv.allOk]
  · intro k hk
    have hall := lookup_eq_none_forall k data hk
    have hnew : ∀ q ∈ (data.foldl (fun m kv => SVMap.put m kv.1 kv.2)
        ([] : List (String × String))), q.1 ≠ k := by
      intro q hq
      rcases mem_foldl_put q data [] hq with h | ⟨p, hp, hqp⟩
      · cases h
      · rw [hqp]; exact hall p hp
    simpa [IdentifiableMongoDbPersistence.applySet] using
      lookup_foldl_put k _ d.fields hnew

/-- Witness for C8: updating only the name of a two-field document. -/
theorem updatePartially_frame_witness :
    findOneDoc [{ id := "1", fields := [("name", "A"), ("age", "30")] }] "1"
      = some { id := "1", fields := [("name", "A"), ("age", "30")] }
  ∧ ∃ d2, IdentifiableMongoDbPersistence.UpdatePartially "" DbEnv.allOk
      [{ id := "1", fields := [("name", "A"), ("age", "30")] }] (some "1")
      [("name", "X")]
      = ([{ id := "1", fields := [("name", "A"), ("age", "30")] }].map
          (fun x => if x.id = "1" then d2 else x), .ok (some d2))
    ∧ d2.id = "1"
    ∧ (∀ k, List.lookup k [("name", "X")] = none →
        List.lookup k d2.fields
          = List.lookup k
            ({ id := "1", fields := [("name", "A"), ("age", "30")] } : Doc).fields) :=
  ⟨rfl, updatePartially_frame "" [{ id := "1", fields := [("name", "A"), ("age", "30")] }]
    "1" [("name", "X")] { id := "1", fields := [("name", "A"), ("age", "30")] } rfl⟩

end MongoDb
